import Mathlib

/-
Shallow embedding of the MARL UI-testing core (ui_state_representation.py,
reward_system.py, marl_agents.py, train_marl.py) and proofs settling the
frozen claims about it.

Conventions of the embedding:
- Python floats are modelled as rationals (every constant in the source is an
  exact decimal), Python ints as Nat or Int.
- Python dictionaries whose keys are fixed in the source are modelled as
  structures whose field defaults mirror dict.get defaults.
- Python sets of md5-hex fingerprints are modelled as Finset String over the
  pre-digest identifying string (hashlib.md5 is an external injective-up-to-
  collision digest of exactly that string).
- Code that raises is modelled with Option: none marks the raising branch.
-/

namespace MarlUiTesting

/-- Does the pattern start at the head of the character list? -/
def startsWithChars : List Char → List Char → Bool
  | [], _ => true
  | _ :: _, [] => false
  | p :: ps, c :: cs => p == c && startsWithChars ps cs

/-- Does the pattern occur anywhere in the character list? -/
def containsChars (pat : List Char) : List Char → Bool
  | [] => pat.isEmpty
  | c :: cs => startsWithChars pat (c :: cs) || containsChars pat cs

/-- Substring test: Python `pat in s`. -/
def strContains (s pat : String) : Bool :=
  containsChars pat.data s.data

/-- ASCII lowercasing of one character (Python str.lower on the ASCII URLs
and markers involved here). -/
def lowerChar (c : Char) : Char :=
  if 65 ≤ c.toNat ∧ c.toNat ≤ 90 then Char.ofNat (c.toNat + 32) else c

/-- ASCII lowercasing of a string. -/
def lowerString (s : String) : String :=
  String.mk (s.data.map lowerChar)

/-- Bounding box of a UI element (`position` dict in ui_state_representation.py:
x, y, width, height). -/
structure Position where
  x : Int
  y : Int
  width : Int
  height : Int
deriving DecidableEq, Repr

/-- UIElement dataclass from ui_state_representation.py. -/
structure UIElement where
  tag : String
  text : String
  attributes : List (String × String)
  position : Position
  is_visible : Bool
  is_enabled : Bool
  is_interactable : Bool
  element_type : String
  xpath : String
  css_selector : String
deriving DecidableEq, Repr

/-- The user_context dict of PageState.  The source reads exactly these keys
with `.get(key, default)`; the field defaults are the dict.get defaults. -/
structure UserContext where
  logged_in : Bool := false
  is_admin : Bool := false
  has_items_in_basket : Bool := false
  is_deluxe_user : Bool := false
  user_id : ℚ := 0
  session_duration : ℚ := 0
  page_views : ℚ := 0
  failed_logins : ℚ := 0
  successful_actions : ℚ := 0
deriving DecidableEq, Repr

/-- PageState dataclass from ui_state_representation.py. -/
structure PageState where
  url : String
  title : String
  elements : List UIElement
  user_context : UserContext
  page_type : String
  timestamp : ℚ
deriving DecidableEq, Repr

/-- UIStateRepresentation.element_types. -/
def element_types : List String :=
  ["button", "input", "link", "select", "textarea",
   "checkbox", "radio", "image", "div", "span", "other"]

/-- UIStateRepresentation.attribute_types. -/
def attribute_types : List String :=
  ["id", "class", "type", "value", "placeholder", "href", "src"]

/-- UIStateRepresentation.max_elements (constructor default). -/
def max_elements : ℕ := 100

/-- Python `attr_type in elem.attributes`: key membership in the attribute
dict. -/
def hasAttr (e : UIElement) (attr : String) : Bool :=
  (e.attributes.map Prod.fst).contains attr

/-- UIStateRepresentation.state_to_vector.  The source allocates
np.zeros(175) (11 element types * 10 + 7 attribute types * 5 + 20 + 10),
fills 110 + 35 + 10 + 5 = 160 entries and leaves the last 15 zero.  Both
the per-element-type block and the per-attribute block divide by
len(page_state.elements) with no guard, so Python raises ZeroDivisionError
when the elements list is empty; that raising branch is the `none` case. -/
def state_to_vector (ps : PageState) : Option (List ℚ) :=
  if ps.elements.length = 0 then
    none
  else
    let n : ℚ := ps.elements.length
    let elemBlocks : List (List ℚ) := element_types.map (fun t =>
      List.replicate 10 (((ps.elements.filter (fun e => e.element_type = t)).length : ℚ) / n))
    let attrBlocks : List (List ℚ) := attribute_types.map (fun a =>
      List.replicate 5 (((ps.elements.filter (fun e => hasAttr e a)).length : ℚ) / n))
    let page_features : List ℚ :=
      [ (ps.elements.length : ℚ) / (max_elements : ℚ),
        if strContains ps.page_type "login" then 1 else 0,
        if strContains ps.page_type "product" then 1 else 0,
        if strContains ps.page_type "basket" then 1 else 0,
        if strContains ps.page_type "admin" then 1 else 0,
        (ps.url.length : ℚ) / 100,
        if ps.user_context.logged_in then 1 else 0,
        if ps.user_context.is_admin then 1 else 0,
        if ps.user_context.has_items_in_basket then 1 else 0,
        if ps.user_context.is_deluxe_user then 1 else 0 ]
    let user_features : List ℚ :=
      [ ps.user_context.user_id / 1000,
        ps.user_context.session_duration / 3600,
        ps.user_context.page_views / 100,
        ps.user_context.failed_logins / 10,
        ps.user_context.successful_actions / 50 ]
    some (elemBlocks.flatten ++ attrBlocks.flatten ++ page_features ++ user_features ++
          List.replicate 15 0)

/-- A page observation with an empty elements list (e.g. a page where no
interactable element was extracted). -/
def psEmptyElems : PageState :=
  { url := "http://localhost:3000/#/"
    title := "OWASP Juice Shop"
    elements := []
    user_context := {}
    page_type := "general"
    timestamp := 0 }

/-- A sample login-button element. -/
def elemLoginButton : UIElement :=
  { tag := "button"
    text := "Log in"
    attributes := [("id", "loginButton")]
    position := { x := 10, y := 20, width := 80, height := 30 }
    is_visible := true
    is_enabled := true
    is_interactable := true
    element_type := "button"
    xpath := "id(\"loginButton\")"
    css_selector := "#loginButton" }

/-- A page observation with one element. -/
def psOneElem : PageState :=
  { url := "http://localhost:3000/#/login"
    title := "Login"
    elements := [elemLoginButton]
    user_context := {}
    page_type := "login"
    timestamp := 0 }

/- ## Reward system (reward_system.py) -/

/-- CoverageMetrics dataclass.  The sets hold fingerprints; the three ratio
fields are recomputed by calculate_coverage_reward. -/
structure CoverageMetrics where
  pages_visited : Finset String
  elements_discovered : Finset String
  interactions_performed : Finset String
  unique_paths : Finset String
  page_coverage : ℚ := 0
  element_coverage : ℚ := 0
  interaction_coverage : ℚ := 0
deriving DecidableEq

/-- QualityMetrics dataclass. -/
structure QualityMetrics where
  test_diversity : ℚ := 0
  test_complexity : ℚ := 0
  assertion_coverage : ℚ := 0
  edge_case_coverage : ℚ := 0
  bug_discovery_rate : ℚ := 0
deriving DecidableEq

/-- The mutable state of a RewardCalculator instance (its weights and
baseline_metrics are constants, embedded as defs below). -/
structure RewardCalculatorState where
  coverage_metrics : CoverageMetrics
  quality_metrics : QualityMetrics
deriving DecidableEq

/-- baseline_metrics: estimated total pages. -/
def total_pages : ℕ := 50

/-- baseline_metrics: estimated total interactable elements. -/
def total_elements : ℕ := 1000

/-- baseline_metrics: estimated total interaction kinds. -/
def total_interactions : ℕ := 100

/-- RewardCalculator.weights, a dict with five fixed entries. -/
def reward_weights : String → ℚ := fun key =>
  if key = "exploration" then 3/10
  else if key = "coverage" then 1/4
  else if key = "quality" then 1/5
  else if key = "bug_discovery" then 3/20
  else if key = "efficiency" then 1/10
  else 0

/-- RewardCalculator.__init__: both metric objects start empty. -/
def mkRewardCalculator : RewardCalculatorState :=
  { coverage_metrics :=
      { pages_visited := ∅, elements_discovered := ∅,
        interactions_performed := ∅, unique_paths := ∅ }
    quality_metrics := {} }

/-- RewardCalculator.reset_metrics: reassigns both metric objects to fresh
empty ones (the argument, the old state, is discarded). -/
def reset_metrics (_s : RewardCalculatorState) : RewardCalculatorState :=
  mkRewardCalculator

/-- RewardCalculator._hash_page: md5 over the string
url + "_" + title + "_" + page_type; modelled by that identifying string. -/
def hash_page (ps : PageState) : String :=
  ps.url ++ "_" ++ ps.title ++ "_" ++ ps.page_type

/-- RewardCalculator._hash_element: md5 over
tag + "_" + element_type + "_" + xpath; modelled by that identifying string. -/
def hash_element (e : UIElement) : String :=
  e.tag ++ "_" ++ e.element_type ++ "_" ++ e.xpath

/-- The new-element loop of calculate_exploration_reward: walks the page
elements in order, adding each unseen element fingerprint to the set and
counting how many were new. -/
def elemFold : ℕ × Finset String → List UIElement → ℕ × Finset String
  | acc, [] => acc
  | acc, e :: es =>
      if hash_element e ∈ acc.2 then elemFold acc es
      else elemFold (acc.1 + 1, insert (hash_element e) acc.2) es

/-- Python `action in ["click", "type", "select"]`. -/
def is_meaningful (action : String) : Bool :=
  action == "click" || action == "type" || action == "select"

/-- Python `action in ["wait", "scroll_up", "scroll_down"]`. -/
def is_idle (action : String) : Bool :=
  action == "wait" || action == "scroll_up" || action == "scroll_down"

/-- The guard of the interaction-bonus branch:
`action in ["click", "type", "select"] and success`. -/
def meaningful_success (action : String) (success : Bool) : Bool :=
  is_meaningful action && success

/-- The interaction fingerprint built at reward_system.py line 97.  The guard
`hasattr(locals(), "element_hash")` asks whether the dict returned by locals()
has an *attribute* of that name, which is always False in CPython, so the
f-string always substitutes the literal fallback "unknown": the key never
involves any element fingerprint. -/
def interaction_key (page_hash action : String) : String :=
  page_hash ++ "_" ++ action ++ "_" ++ "unknown"

/-- Reward value returned by RewardCalculator.calculate_exploration_reward.
The source accumulates into one running `reward`; the five addends here are
the five `reward +=` sites in order (base, new page, new elements, new
interaction, idle penalty). -/
def exploration_reward_value (s : RewardCalculatorState) (ps : PageState)
    (action : String) (success : Bool) : ℚ :=
  let cm := s.coverage_metrics
  let base : ℚ := if success then 1 else -(1/2)
  let page_bonus : ℚ := if hash_page ps ∈ cm.pages_visited then 0 else 2
  let new_elements := (elemFold (0, cm.elements_discovered) ps.elements).1
  let elem_bonus : ℚ := if 0 < new_elements then new_elements * (1/2) else 0
  let inter_bonus : ℚ :=
    if meaningful_success action success then
      if interaction_key (hash_page ps) action ∈ cm.interactions_performed then 0 else 1
    else 0
  let penalty : ℚ := if is_idle action then -(1/10) else 0
  base + page_bonus + elem_bonus + inter_bonus + penalty

/-- State after RewardCalculator.calculate_exploration_reward: the three
fingerprint sets absorb the page hash, the element hashes and (for a
successful meaningful action) the interaction key; nothing else changes. -/
def exploration_reward_state (s : RewardCalculatorState) (ps : PageState)
    (action : String) (success : Bool) : RewardCalculatorState :=
  let cm := s.coverage_metrics
  let pages2 := if hash_page ps ∈ cm.pages_visited then cm.pages_visited
                else insert (hash_page ps) cm.pages_visited
  let elems2 := (elemFold (0, cm.elements_discovered) ps.elements).2
  let inters2 :=
    if meaningful_success action success then
      if interaction_key (hash_page ps) action ∈ cm.interactions_performed then
        cm.interactions_performed
      else insert (interaction_key (hash_page ps) action) cm.interactions_performed
    else cm.interactions_performed
  { s with coverage_metrics :=
      { cm with pages_visited := pages2, elements_discovered := elems2,
                interactions_performed := inters2 } }

/-- RewardCalculator.calculate_exploration_reward: returns the reward and
mutates self; here the pair of value and next state. -/
def calculate_exploration_reward (s : RewardCalculatorState) (ps : PageState)
    (action : String) (success : Bool) : ℚ × RewardCalculatorState :=
  (exploration_reward_value s ps action success,
   exploration_reward_state s ps action success)

/-- RewardCalculator.calculate_coverage_reward: recomputes the three ratio
fields from set sizes over the fixed baselines, combines them 0.4/0.4/0.2,
scales by 10 and adds the two milestone bonuses. -/
def calculate_coverage_reward (s : RewardCalculatorState) :
    ℚ × RewardCalculatorState :=
  let cm := s.coverage_metrics
  let pc : ℚ := (cm.pages_visited.card : ℚ) / (total_pages : ℚ)
  let ec : ℚ := (cm.elements_discovered.card : ℚ) / (total_elements : ℚ)
  let ic : ℚ := (cm.interactions_performed.card : ℚ) / (total_interactions : ℚ)
  let coverage_score := pc * (2/5) + ec * (2/5) + ic * (1/5)
  let r0 := coverage_score * 10
  let r1 := if 4/5 ≤ pc then r0 + 5 else r0
  let r2 := if 7/10 ≤ ec then r1 + 5 else r1
  (r2, { s with coverage_metrics :=
          { cm with page_coverage := pc, element_coverage := ec,
                    interaction_coverage := ic } })

/-- One step record of a TestScenario (a dict in the source; optional keys
become Option fields, get defaults become field defaults). -/
structure TestStep where
  action : String
  target : String := ""
  value : Option String := none
  duration : Option ℚ := none
  condition : Option String := none
deriving DecidableEq, Repr

/-- One assertion record of a TestScenario. -/
structure TestAssertion where
  type : String
  target : Option String := none
  value : Option String := none
  min : Option ℕ := none
deriving DecidableEq, Repr

/-- TestScenario dict built by TestGenerationAgent._create_test_scenario. -/
structure TestScenario where
  name : String
  pattern : String
  steps : List TestStep
  assertions : List TestAssertion
  test_data : List (String × String) := []
  expected_outcome : String := ""
  priority : String := "medium"
deriving DecidableEq, Repr

/-- RewardCalculator._calculate_test_complexity. -/
def test_complexity (steps : List TestStep) : ℚ :=
  let total := steps.foldl (fun acc step =>
    let acc := if step.action = "click" ∨ step.action = "type" then acc + 1
               else if step.action = "navigate" ∨ step.action = "wait" then acc + 1/2
               else if step.action = "scroll" ∨ step.action = "hover" then acc + 3/10
               else acc
    let acc := if step.condition.isSome then acc + 1/2 else acc
    if (step.value.getD "").startsWith "$\x7b" ∧ step.value.isSome then acc + 3/10 else acc) 0
  min total 10

/-- RewardCalculator._calculate_assertion_quality. -/
def assertion_quality (assertions : List TestAssertion) : ℚ :=
  let total := assertions.foldl (fun acc a =>
    if a.type = "element_visible" ∨ a.type = "text_contains" then acc + 1
    else if a.type = "url_contains" ∨ a.type = "element_count" then acc + 3/2
    else if a.type = "attribute_equals" ∨ a.type = "css_property" then acc + 2
    else if a.type = "performance_metric" ∨ a.type = "accessibility_check" then acc + 5/2
    else acc) 0
  min total 10

/-- Characters whose presence in a step value counts as an edge case
(the list contains the single-quote character, written by code point). -/
def special_chars : List Char := ['<', '>', '"', Char.ofNat 39, '&']

/-- SQL-injection-like substrings. -/
def sql_patterns : List String := ["union", "select", "drop", "insert"]

/-- RewardCalculator._calculate_edge_case_coverage. -/
def edge_case_coverage (ts : TestScenario) : ℚ :=
  let total := ts.steps.foldl (fun acc step =>
    let v := step.value.getD ""
    let acc := if v = "" ∨ v = "null" ∨ v = "undefined" then acc + 1 else acc
    let acc := if special_chars.any (fun c => v.contains c) then acc + 1 else acc
    let acc := if 100 < v.length then acc + 1 else acc
    if sql_patterns.any (fun p => strContains (lowerString v) p) then acc + 2 else acc) 0
  min total 5

/-- RewardCalculator.calculate_test_quality_reward (pure: reads no instance
state). -/
def calculate_test_quality_reward (ts : TestScenario) : ℚ :=
  let qr : ℚ := 0
  let qr := if 3 ≤ ts.steps.length then qr + 2 else qr
  let qr := if 2 ≤ ts.assertions.length then qr + 2 else qr
  let qr :=
    if ts.pattern = "login_flow" ∨ ts.pattern = "registration_flow" ∨
       ts.pattern = "checkout_flow" then qr + 3/2
    else if ts.pattern = "security_tests" ∨ ts.pattern = "error_handling" then qr + 2
    else qr
  qr + test_complexity ts.steps * (1/2) + assertion_quality ts.assertions * (3/10) +
    edge_case_coverage ts * (2/5)

/-- The test_results dict consumed by calculate_bug_discovery_reward. -/
structure TestResults where
  failed_assertions : ℕ := 0
  javascript_errors : ℕ := 0
  accessibility_issues : ℕ := 0
  performance_issues : ℕ := 0
  security_vulnerabilities : ℕ := 0
deriving DecidableEq, Repr

/-- RewardCalculator.calculate_bug_discovery_reward (pure). -/
def calculate_bug_discovery_reward (tr : TestResults) : ℚ :=
  let br : ℚ := 0
  let br := if 0 < tr.failed_assertions then br + 3 else br
  let br := if 0 < tr.javascript_errors then br + 2 else br
  let br := if 0 < tr.accessibility_issues then br + 3/2 else br
  let br := if 0 < tr.performance_issues then br + 1 else br
  if 0 < tr.security_vulnerabilities then br + 5 else br

/-- The episode_data dict consumed by calculate_efficiency_reward. -/
structure EpisodeData where
  duration : ℚ := 0
  total_actions : ℕ := 0
  successful_actions : ℕ := 0
deriving DecidableEq, Repr

/-- RewardCalculator.calculate_efficiency_reward (reads the stored page
coverage ratio; mutates nothing). -/
def calculate_efficiency_reward (s : RewardCalculatorState) (ed : EpisodeData) : ℚ :=
  let er : ℚ := 0
  let er := if ed.duration < 60 then er + 1
            else if 300 < ed.duration then er - 1/2 else er
  let er := if 0 < ed.total_actions then
              (let success_rate := (ed.successful_actions : ℚ) / (ed.total_actions : ℚ)
               if 4/5 ≤ success_rate then er + 1
               else if success_rate < 1/2 then er - 1/2 else er)
            else er
  let coverage_per_action := s.coverage_metrics.page_coverage / (max ed.total_actions 1 : ℚ)
  if 1/100 < coverage_per_action then er + 1/2 else er

/-- RewardCalculator.calculate_total_reward: the weighted sum of the five
component rewards using the fixed weights dict. -/
def calculate_total_reward (exploration coverage quality bug efficiency : ℚ) : ℚ :=
  exploration * reward_weights "exploration" +
  coverage * reward_weights "coverage" +
  quality * reward_weights "quality" +
  bug * reward_weights "bug_discovery" +
  efficiency * reward_weights "efficiency"

/-- A fresh run of the system (used as concrete input in several theorems):
two distinct interactable buttons on the login page. -/
def elemRegisterButton : UIElement :=
  { tag := "button"
    text := "Register"
    attributes := [("id", "registerButton")]
    position := { x := 10, y := 60, width := 80, height := 30 }
    is_visible := true
    is_enabled := true
    is_interactable := true
    element_type := "button"
    xpath := "id(\"registerButton\")"
    css_selector := "#registerButton" }

/-- A page observation with two distinct elements. -/
def psTwoElems : PageState :=
  { url := "http://localhost:3000/#/login"
    title := "Login"
    elements := [elemLoginButton, elemRegisterButton]
    user_context := {}
    page_type := "login"
    timestamp := 0 }

/-- Calculator state after one successful click reward on the two-element
login page, starting from a fresh calculator. -/
def sAfterFirstClick : RewardCalculatorState :=
  (calculate_exploration_reward mkRewardCalculator psTwoElems "click" true).2

/- ## C6: coverage monotonicity across arbitrary method-call sequences -/

/-- One RewardCalculator method call (reset_metrics excluded, as the claim
requires no intervening reset). -/
inductive RCall where
  | exploration (ps : PageState) (action : String) (success : Bool)
  | coverage
  | quality (ts : TestScenario)
  | bug (tr : TestResults)
  | efficiency (ed : EpisodeData)
  | total (e c q b f : ℚ)
  | summary

/-- Effect of one method call on the calculator state.  Only
calculate_exploration_reward and calculate_coverage_reward write to it; the
quality, bug-discovery, efficiency, total and summary methods are read-only
in the source. -/
def applyCall (s : RewardCalculatorState) : RCall → RewardCalculatorState
  | .exploration ps action success => (calculate_exploration_reward s ps action success).2
  | .coverage => (calculate_coverage_reward s).2
  | .quality _ => s
  | .bug _ => s
  | .efficiency _ => s
  | .total _ _ _ _ _ => s
  | .summary => s

/-- A whole call sequence, applied left to right. -/
def applyCalls (s : RewardCalculatorState) (calls : List RCall) : RewardCalculatorState :=
  calls.foldl applyCall s

/-- Consistency of the stored ratio fields with the current set sizes: each
stored ratio is at most the ratio that the next calculate_coverage_reward
would recompute.  It holds for a fresh calculator (all zero) and is preserved
by every method call. -/
def RatiosConsistent (s : RewardCalculatorState) : Prop :=
  s.coverage_metrics.page_coverage ≤
    (s.coverage_metrics.pages_visited.card : ℚ) / (total_pages : ℚ) ∧
  s.coverage_metrics.element_coverage ≤
    (s.coverage_metrics.elements_discovered.card : ℚ) / (total_elements : ℚ) ∧
  s.coverage_metrics.interaction_coverage ≤
    (s.coverage_metrics.interactions_performed.card : ℚ) / (total_interactions : ℚ)

/- ## Exploration agent (marl_agents.py) -/

/-- Action dataclass from marl_agents.py. -/
structure Action where
  action_type : String
  target_element : Option UIElement := none
  value : Option String := none
  parameters : Option (List (String × String)) := none
deriving DecidableEq, Repr

/-- One replay-memory entry: (state, action, reward, next_state, done). -/
structure Experience where
  state : List ℚ
  action : Action
  reward : ℚ
  next_state : List ℚ
  done : Bool
deriving DecidableEq, Repr

/-- ExplorationAgent.action_types. -/
def action_types : List String :=
  ["click", "type", "scroll_up", "scroll_down", "wait",
   "navigate_back", "navigate_forward", "refresh", "hover"]

/-- ExplorationAgent.batch_size. -/
def batch_size : ℕ := 32

/-- ExplorationAgent.epsilon_min. -/
def epsilon_min : ℚ := 1/100

/-- ExplorationAgent.epsilon_decay. -/
def epsilon_decay : ℚ := 995/1000

/-- The mutable state of an ExplorationAgent.  The torch network parameters
and the optimizer state are opaque data to the selection and replay control
flow settled here, so they are type parameters P and O. -/
structure AgentState (P O : Type) where
  memory : List Experience
  epsilon : ℚ
  q_network : P
  target_network : P
  optimizer : O

/-- ExplorationAgent.replay.  If the memory holds fewer than batch_size
experiences the method returns immediately; otherwise it samples a batch
(`sample`, abstracting random.sample), runs one gradient step on the online
network and optimizer (`train`, abstracting the torch loss/backward/step
block, which reads the target network but never writes it), and finally
decays epsilon multiplicatively toward the floor. -/
def replay {P O : Type} (train : P → P → O → List Experience → P × O)
    (sample : List Experience → List Experience)
    (s : AgentState P O) : AgentState P O :=
  if s.memory.length < batch_size then s
  else
    let batch := sample s.memory
    let step := train s.q_network s.target_network s.optimizer batch
    let eps2 := if epsilon_min < s.epsilon then s.epsilon * epsilon_decay else s.epsilon
    { s with q_network := step.1, optimizer := step.2, epsilon := eps2 }

/-- The per-element branch of ExplorationAgent.get_available_actions. -/
def element_actions (e : UIElement) : List Action :=
  if e.is_interactable then
    if e.element_type = "button" then [{ action_type := "click", target_element := some e }]
    else if e.element_type = "input" then
      [{ action_type := "type", target_element := some e, value := some "test_input" }]
    else if e.element_type = "link" then [{ action_type := "click", target_element := some e }]
    else []
  else []

/-- The five navigation actions get_available_actions always appends. -/
def navigation_actions : List Action :=
  [{ action_type := "scroll_up" }, { action_type := "scroll_down" },
   { action_type := "wait" }, { action_type := "navigate_back" },
   { action_type := "refresh" }]

/-- ExplorationAgent.get_available_actions: element-derived actions in
discovery order, then the five fixed navigation actions. -/
def get_available_actions (ps : PageState) : List Action :=
  (ps.elements.flatMap element_actions) ++ navigation_actions

/- ## C4: epsilon-greedy action selection -/

/-- np.argmax over a score list: the index of the first occurrence of the
maximal entry (0 on the empty list, where numpy raises instead — get_action
only evaluates it on non-empty lists). -/
def argmaxIdx : List ℚ → ℕ
  | [] => 0
  | x :: xs => if ∀ y ∈ xs, y ≤ x then 0 else argmaxIdx xs + 1

/-- The score list built inside ExplorationAgent.get_action: the Q-network
output row (abstracted as q, a function from action index to value) looked up
at each available action's action-type index. -/
def scoresOf (q : ℕ → ℚ) (available : List Action) : List ℚ :=
  available.map (fun a => q (action_types.indexOf a.action_type))

/-- ExplorationAgent.get_action.  np.random.random() is the explicit draw r
in [0, 1); random.choice is the explicit uniform index `choice`; the Q-network
forward pass on the current state is the abstract row q.  The source compares
`np.random.random() <= self.epsilon`, takes random.choice(available_actions)
on the random branch (IndexError on an empty list: none), and otherwise
indexes available_actions at np.argmax of the scores (ValueError on an empty
list: none). -/
def get_action (epsilon r : ℚ) (choice : ℕ) (q : ℕ → ℚ)
    (available : List Action) : Option Action :=
  if r ≤ epsilon then
    if available.isEmpty then none
    else available[choice % available.length]?
  else
    if available.isEmpty then none
    else available[argmaxIdx (scoresOf q available)]?

/-- A click action with no target (only its type matters to selection). -/
def actClick : Action := { action_type := "click" }

/-- A wait action with no target. -/
def actWait : Action := { action_type := "wait" }

/-- A concrete Q-row: the value of action index i is i, so later action
types score higher. -/
def qLinear : ℕ → ℚ := fun i => (i : ℚ)

/- ## C9: test scenario generation (TestGenerationAgent) -/

/-- TestGenerationAgent.test_patterns. -/
def test_patterns : List String :=
  ["login_flow", "registration_flow", "product_search", "add_to_basket",
   "checkout_flow", "user_profile", "admin_functions", "error_handling",
   "security_tests", "accessibility_tests"]

/-- TestGenerationAgent._create_test_scenario: maps the sampled action index
modulo the pattern count to a pattern tag (the Python list index is always in
range, so the getD default is never used) and expands the recognized patterns
into their hardcoded step and assertion templates; unrecognized patterns keep
the empty lists.  num_generated is len(self.generated_tests), used only in
the name. -/
def create_test_scenario (action num_generated : ℕ) : TestScenario :=
  let pattern := test_patterns.getD (action % test_patterns.length) ""
  { name := "marl_generated_" ++ pattern ++ "_" ++ toString num_generated
    pattern := pattern
    steps :=
      if pattern = "login_flow" then
        [{ action := "navigate", target := "/login" },
         { action := "type", target := "email", value := some "test@example.com" },
         { action := "type", target := "password", value := some "password123" },
         { action := "click", target := "login_button" }]
      else if pattern = "product_search" then
        [{ action := "navigate", target := "/search" },
         { action := "type", target := "search_input", value := some "apple" },
         { action := "click", target := "search_button" },
         { action := "wait", duration := some 2 }]
      else if pattern = "add_to_basket" then
        [{ action := "navigate", target := "/search" },
         { action := "click", target := ".product-card:first-child" },
         { action := "click", target := ".add-to-basket-button" },
         { action := "click", target := ".basket-button" }]
      else []
    assertions :=
      if pattern = "login_flow" then
        [{ type := "url_contains", value := some "/search" },
         { type := "element_visible", target := some "user_menu" }]
      else if pattern = "product_search" then
        [{ type := "element_count", target := some ".product-card", min := some 1 },
         { type := "text_contains", target := some ".search-results", value := some "apple" }]
      else if pattern = "add_to_basket" then
        [{ type := "element_visible", target := some ".basket-item" },
         { type := "text_contains", target := some ".basket-count", value := some "1" }]
      else []
    test_data := []
    expected_outcome := ""
    priority := "medium" }

/- ## C2: episode termination and terminal flags (MARLSystem.train_episode) -/

/-- One observation tick of the environment driver as the episode loop sees
it: the page observed at the top of the loop body (pre) and the page the
driver shows after the chosen action was executed (post, whose URL feeds
_is_episode_done and the next state). -/
structure StepObs where
  pre : PageState
  post : PageState

/-- MARLSystem._is_episode_done:
`step >= 50 or "error" in driver.current_url.lower()`. -/
def is_episode_done (url : String) (step : ℕ) : Bool :=
  decide (50 ≤ step) || strContains (lowerString url) "error"

/-- The done flags recorded by the exploration loop of
MARLSystem.train_episode, in order: `for step in range(50)` observes the
page, breaks if no action is available (never happens, see C10), executes
the chosen action, computes done = _is_episode_done(driver, step), records
the experience carrying that flag, and breaks if done.  The environment
driver is modelled as the deterministic observation trace env; the loop
control flow does not depend on which available action was chosen. -/
def episode_done_flags (env : ℕ → StepObs) : ℕ → ℕ → List Bool
  | _, 0 => []
  | step, fuel + 1 =>
      let obs := env step
      if (get_available_actions obs.pre).isEmpty then []
      else
        let done := is_episode_done obs.post.url step
        done :: (if done then [] else episode_done_flags env (step + 1) fuel)

/-- A healthy environment: every observation shows the two-element login page
and an error-free URL. -/
def envConstLogin : ℕ → StepObs :=
  fun _ => { pre := psTwoElems, post := psTwoElems }

/-- A page whose URL carries the error marker. -/
def psErrorPage : PageState :=
  { url := "http://localhost:3000/#/error"
    title := "Error"
    elements := []
    user_context := {}
    page_type := "general"
    timestamp := 0 }

/-- An environment that shows an error URL after the first action. -/
def envError : ℕ → StepObs :=
  fun _ => { pre := psTwoElems, post := psErrorPage }

/- Proof section: all lemmas and claim theorems. -/

set_option maxRecDepth 8000 in
/-- On any page with at least one element, state_to_vector succeeds and the
vector has the configured fixed length 175.  (All entries are rationals, hence
finite by construction.) -/
lemma state_to_vector_length (ps : PageState) (h : ps.elements ≠ []) :
    ∃ v, state_to_vector ps = some v ∧ v.length = 175 := by
  have hlen : ps.elements.length ≠ 0 := by
    simpa [List.length_eq_zero] using h
  unfold state_to_vector
  rw [if_neg hlen]
  refine ⟨_, rfl, ?_⟩
  simp [element_types, attribute_types]

/-- C1: the claim says state_to_vector special-cases an empty elements list
and returns an all-zero-block 175-vector instead of failing.  The code has no
such special case: it divides each per-type count by len(elements), raising
ZeroDivisionError (modelled as none) on the empty page, while any non-empty
page does produce a length-175 vector. -/
theorem c1_zero_division_bug :
    state_to_vector psEmptyElems = none ∧
    (state_to_vector psOneElem).map List.length = some 175 := by
  constructor
  · rfl
  · rfl

/- ## Supporting lemmas for the exploration reward -/

/-- The element loop only ever inserts into the accumulated fingerprint set. -/
lemma elemFold_subset (es : List UIElement) (acc : ℕ × Finset String) :
    acc.2 ⊆ (elemFold acc es).2 := by
  induction es generalizing acc with
  | nil => simp [elemFold]
  | cons e es ih =>
      by_cases hmem : hash_element e ∈ acc.2
      · simpa [elemFold, hmem] using ih acc
      · calc acc.2 ⊆ insert (hash_element e) acc.2 := Finset.subset_insert _ _
          _ ⊆ (elemFold (acc.1 + 1, insert (hash_element e) acc.2) es).2 :=
              ih (acc.1 + 1, insert (hash_element e) acc.2)
          _ = (elemFold acc (e :: es)).2 := by simp [elemFold, hmem]

/-- After the element loop, every walked element fingerprint is in the set. -/
lemma elemFold_mem (es : List UIElement) (acc : ℕ × Finset String) :
    ∀ e ∈ es, hash_element e ∈ (elemFold acc es).2 := by
  induction es generalizing acc with
  | nil => simp
  | cons e es ih =>
      intro x hx
      rcases List.mem_cons.mp hx with hx | hx
      · subst hx
        by_cases hmem : hash_element x ∈ acc.2
        · have := elemFold_subset es acc hmem
          simpa [elemFold, hmem] using this
        · have : hash_element x ∈ (insert (hash_element x) acc.2 : Finset String) :=
            Finset.mem_insert_self _ _
          have := elemFold_subset es (acc.1 + 1, insert (hash_element x) acc.2) this
          simpa [elemFold, hmem] using this
      · by_cases hmem : hash_element e ∈ acc.2
        · simpa [elemFold, hmem] using ih acc x hx
        · simpa [elemFold, hmem] using ih (acc.1 + 1, insert (hash_element e) acc.2) x hx

/-- If every walked fingerprint is already present, the loop is the identity:
it counts zero new elements and leaves the set unchanged. -/
lemma elemFold_of_all_mem (es : List UIElement) (acc : ℕ × Finset String)
    (h : ∀ e ∈ es, hash_element e ∈ acc.2) : elemFold acc es = acc := by
  induction es generalizing acc with
  | nil => simp [elemFold]
  | cons e es ih =>
      have he : hash_element e ∈ acc.2 := h e (by simp)
      have : elemFold acc (e :: es) = elemFold acc es := by simp [elemFold, he]
      rw [this, ih acc (fun x hx => h x (by simp [hx]))]

/-- C3: the claim says the +1.0 interaction bonus is keyed on the target
element, so on a fixed page each distinct clicked element earns it once.  In
the code the key guard `hasattr(locals(), "element_hash")` is always False,
so the key ends in the literal "unknown" for every element: on the fresh
calculator the first successful click on the two-element login page earns the
bonus (reward 1 base + 2 page + 1 elements + 1 interaction = 5), the second
successful click on the same page earns no interaction bonus at all (reward
1), and the interaction set holds exactly the single element-free key. -/
theorem c3_interaction_key_bug :
    (calculate_exploration_reward mkRewardCalculator psTwoElems "click" true).1 = 5 ∧
    (calculate_exploration_reward sAfterFirstClick psTwoElems "click" true).1 = 1 ∧
    sAfterFirstClick.coverage_metrics.interactions_performed =
      {hash_page psTwoElems ++ "_click_unknown"} := by
  have hms : meaningful_success "click" true = true := rfl
  have hidle : is_idle "click" = false := rfl
  have hpage0 : hash_page psTwoElems ∉
      mkRewardCalculator.coverage_metrics.pages_visited := by decide
  have hfold0 : elemFold (0, mkRewardCalculator.coverage_metrics.elements_discovered)
      psTwoElems.elements =
      (2, {hash_element elemRegisterButton, hash_element elemLoginButton}) := by decide
  have hkey0 : interaction_key (hash_page psTwoElems) "click" ∉
      mkRewardCalculator.coverage_metrics.interactions_performed := by decide
  have hpage1 : hash_page psTwoElems ∈
      sAfterFirstClick.coverage_metrics.pages_visited := by decide
  have hfold1 : elemFold (0, sAfterFirstClick.coverage_metrics.elements_discovered)
      psTwoElems.elements =
      (0, sAfterFirstClick.coverage_metrics.elements_discovered) := by decide
  have hkey1 : interaction_key (hash_page psTwoElems) "click" ∈
      sAfterFirstClick.coverage_metrics.interactions_performed := by decide
  refine ⟨?_, ?_, by decide⟩
  · show exploration_reward_value mkRewardCalculator psTwoElems "click" true = 5
    simp only [exploration_reward_value]
    rw [if_neg hpage0, hfold0]
    norm_num [hms, hkey0, hidle]
  · show exploration_reward_value sAfterFirstClick psTwoElems "click" true = 1
    simp only [exploration_reward_value]
    rw [if_pos hpage1, hfold1]
    norm_num [hms, hkey1, hidle]

/-- C5: calculate_total_reward is exactly the fixed weighted sum
0.30/0.25/0.20/0.15/0.10 of its five components, with no other term, and the
five weights sum to 1. -/
theorem c5_total_reward_weighted_sum :
    (∀ e c q b f : ℚ, calculate_total_reward e c q b f =
        e * (3/10) + c * (1/4) + q * (1/5) + b * (3/20) + f * (1/10)) ∧
    reward_weights "exploration" + reward_weights "coverage" +
      reward_weights "quality" + reward_weights "bug_discovery" +
      reward_weights "efficiency" = 1 := by
  constructor
  · intro e c q b f
    simp [calculate_total_reward, reward_weights]
  · simp [reward_weights]
    norm_num

/-- C7: calling calculate_exploration_reward on a page whose fingerprint has
never been seen yields a reward at least 2.0 higher than the immediately
following call with the identical page, action and success flag. -/
theorem c7_first_page_bonus (s : RewardCalculatorState) (ps : PageState)
    (action : String) (success : Bool)
    (h : hash_page ps ∉ s.coverage_metrics.pages_visited) :
    (calculate_exploration_reward
        (calculate_exploration_reward s ps action success).2 ps action success).1 + 2 ≤
      (calculate_exploration_reward s ps action success).1 := by
  unfold calculate_exploration_reward
  set s1 := exploration_reward_state s ps action success with hs1
  -- the second call finds the page fingerprint present
  have hpage1 : hash_page ps ∈ s1.coverage_metrics.pages_visited := by
    simp [hs1, exploration_reward_state, h, Finset.mem_insert_self]
  -- the second call finds every element fingerprint present
  have helems1 : ∀ e ∈ ps.elements,
      hash_element e ∈ s1.coverage_metrics.elements_discovered := by
    intro e he
    simpa [hs1, exploration_reward_state] using
      elemFold_mem ps.elements (0, s.coverage_metrics.elements_discovered) e he
  have hfold2 : elemFold (0, s1.coverage_metrics.elements_discovered) ps.elements =
      (0, s1.coverage_metrics.elements_discovered) :=
    elemFold_of_all_mem _ _ helems1
  -- the second call finds the interaction key present whenever its guard holds
  have hinter1 : meaningful_success action success = true →
      interaction_key (hash_page ps) action ∈
        s1.coverage_metrics.interactions_performed := by
    intro hcond
    by_cases hk : interaction_key (hash_page ps) action ∈
        s.coverage_metrics.interactions_performed
    · simp [hs1, exploration_reward_state, hcond, hk]
    · simp [hs1, exploration_reward_state, hcond, hk, Finset.mem_insert_self]
  -- closed form of the second reward: base plus penalty only
  have hval2 : exploration_reward_value s1 ps action success =
      (if success then (1:ℚ) else -(1/2)) +
      (if is_idle action then -(1/10) else 0) := by
    simp only [exploration_reward_value]
    rw [if_pos hpage1, hfold2]
    by_cases hcond : meaningful_success action success = true
    · rw [if_pos hcond, if_pos (hinter1 hcond)]
      norm_num
    · rw [if_neg hcond]
      norm_num
  -- closed form of the first reward: base, page bonus, nonneg extras, penalty
  have hval1 : exploration_reward_value s ps action success =
      (if success then (1:ℚ) else -(1/2)) + 2 +
      (if 0 < (elemFold (0, s.coverage_metrics.elements_discovered) ps.elements).1 then
         ((elemFold (0, s.coverage_metrics.elements_discovered) ps.elements).1 : ℚ) * (1/2)
       else 0) +
      (if meaningful_success action success then
         if interaction_key (hash_page ps) action ∈
             s.coverage_metrics.interactions_performed then 0 else 1
       else 0) +
      (if is_idle action then -(1/10) else 0) := by
    simp only [exploration_reward_value]
    rw [if_neg h]
  rw [hval1, hval2]
  have hbonus1 : (0:ℚ) ≤
      (if 0 < (elemFold (0, s.coverage_metrics.elements_discovered) ps.elements).1 then
         ((elemFold (0, s.coverage_metrics.elements_discovered) ps.elements).1 : ℚ) * (1/2)
       else 0) := by
    split
    · positivity
    · exact le_refl 0
  have hbonus2 : (0:ℚ) ≤
      (if meaningful_success action success then
         if interaction_key (hash_page ps) action ∈
             s.coverage_metrics.interactions_performed then (0:ℚ) else 1
       else 0) := by
    split
    · split
      · exact le_refl 0
      · norm_num
    · exact le_refl 0
  linarith

/-- C7 witness: the theorem applied at the fresh calculator and the
two-element login page. -/
theorem c7_first_page_bonus_witness :
    hash_page psTwoElems ∉ mkRewardCalculator.coverage_metrics.pages_visited ∧
    (calculate_exploration_reward
        (calculate_exploration_reward mkRewardCalculator psTwoElems "click" true).2
        psTwoElems "click" true).1 + 2 ≤
      (calculate_exploration_reward mkRewardCalculator psTwoElems "click" true).1 :=
  ⟨by simp [mkRewardCalculator],
   c7_first_page_bonus mkRewardCalculator psTwoElems "click" true
     (by simp [mkRewardCalculator])⟩

/-- The exploration call only grows the three fingerprint sets and leaves the
ratio fields untouched. -/
lemma exploration_state_facts (s : RewardCalculatorState) (ps : PageState)
    (action : String) (success : Bool) :
    (s.coverage_metrics.pages_visited ⊆
       (exploration_reward_state s ps action success).coverage_metrics.pages_visited) ∧
    (s.coverage_metrics.elements_discovered ⊆
       (exploration_reward_state s ps action success).coverage_metrics.elements_discovered) ∧
    (s.coverage_metrics.interactions_performed ⊆
       (exploration_reward_state s ps action success).coverage_metrics.interactions_performed) ∧
    (exploration_reward_state s ps action success).coverage_metrics.page_coverage =
      s.coverage_metrics.page_coverage ∧
    (exploration_reward_state s ps action success).coverage_metrics.element_coverage =
      s.coverage_metrics.element_coverage ∧
    (exploration_reward_state s ps action success).coverage_metrics.interaction_coverage =
      s.coverage_metrics.interaction_coverage := by
  refine ⟨?_, ?_, ?_, ?_, ?_, ?_⟩
  · by_cases hp : hash_page ps ∈ s.coverage_metrics.pages_visited
    · simp [exploration_reward_state, hp]
    · simp only [exploration_reward_state, if_neg hp]
      exact Finset.subset_insert _ _
  · simpa [exploration_reward_state] using
      elemFold_subset ps.elements (0, s.coverage_metrics.elements_discovered)
  · by_cases hc : meaningful_success action success = true
    · by_cases hk : interaction_key (hash_page ps) action ∈
          s.coverage_metrics.interactions_performed
      · simp [exploration_reward_state, hc, hk]
      · simp only [exploration_reward_state, if_pos hc, if_neg hk]
        exact Finset.subset_insert _ _
    · simp [exploration_reward_state, hc]
  · simp [exploration_reward_state]
  · simp [exploration_reward_state]
  · simp [exploration_reward_state]

/-- Division of a nonnegative cast by a positive baseline is monotone in the
set size. -/
lemma card_ratio_mono {a b : Finset String} (h : a ⊆ b) (d : ℕ) :
    (a.card : ℚ) / (d : ℚ) ≤ (b.card : ℚ) / (d : ℚ) := by
  have hc : (a.card : ℚ) ≤ (b.card : ℚ) := by
    exact_mod_cast Finset.card_le_card h
  have hdq : (0:ℚ) ≤ (d : ℚ) := by positivity
  exact div_le_div_of_nonneg_right hc hdq

/-- One method call preserves ratio consistency and never decreases any of
the three stored coverage ratios. -/
lemma applyCall_mono (s : RewardCalculatorState) (c : RCall)
    (h : RatiosConsistent s) :
    RatiosConsistent (applyCall s c) ∧
    s.coverage_metrics.page_coverage ≤ (applyCall s c).coverage_metrics.page_coverage ∧
    s.coverage_metrics.element_coverage ≤ (applyCall s c).coverage_metrics.element_coverage ∧
    s.coverage_metrics.interaction_coverage ≤
      (applyCall s c).coverage_metrics.interaction_coverage := by
  obtain ⟨h1, h2, h3⟩ := h
  cases c with
  | exploration ps action success =>
      obtain ⟨hsub1, hsub2, hsub3, he1, he2, he3⟩ :=
        exploration_state_facts s ps action success
      have hr1 := card_ratio_mono hsub1 total_pages
      have hr2 := card_ratio_mono hsub2 total_elements
      have hr3 := card_ratio_mono hsub3 total_interactions
      refine ⟨⟨?_, ?_, ?_⟩, ?_, ?_, ?_⟩ <;>
        simp only [applyCall, calculate_exploration_reward, he1, he2, he3]
      · exact h1.trans hr1
      · exact h2.trans hr2
      · exact h3.trans hr3
      · exact le_refl _
      · exact le_refl _
      · exact le_refl _
  | coverage =>
      refine ⟨⟨?_, ?_, ?_⟩, ?_, ?_, ?_⟩ <;>
        simp only [applyCall, calculate_coverage_reward]
      · exact le_refl _
      · exact le_refl _
      · exact le_refl _
      · exact h1
      · exact h2
      · exact h3
  | quality ts => exact ⟨⟨h1, h2, h3⟩, le_refl _, le_refl _, le_refl _⟩
  | bug tr => exact ⟨⟨h1, h2, h3⟩, le_refl _, le_refl _, le_refl _⟩
  | efficiency ed => exact ⟨⟨h1, h2, h3⟩, le_refl _, le_refl _, le_refl _⟩
  | total e cv q b f => exact ⟨⟨h1, h2, h3⟩, le_refl _, le_refl _, le_refl _⟩
  | summary => exact ⟨⟨h1, h2, h3⟩, le_refl _, le_refl _, le_refl _⟩

/-- Sequence version of applyCall_mono. -/
lemma applyCalls_mono (calls : List RCall) (s : RewardCalculatorState)
    (h : RatiosConsistent s) :
    RatiosConsistent (applyCalls s calls) ∧
    s.coverage_metrics.page_coverage ≤ (applyCalls s calls).coverage_metrics.page_coverage ∧
    s.coverage_metrics.element_coverage ≤
      (applyCalls s calls).coverage_metrics.element_coverage ∧
    s.coverage_metrics.interaction_coverage ≤
      (applyCalls s calls).coverage_metrics.interaction_coverage := by
  induction calls generalizing s with
  | nil => exact ⟨h, le_refl _, le_refl _, le_refl _⟩
  | cons c cs ih =>
      obtain ⟨hinv, hp, he, hi⟩ := applyCall_mono s c h
      obtain ⟨hinv2, hp2, he2, hi2⟩ := ih (applyCall s c) hinv
      exact ⟨hinv2, hp.trans hp2, he.trans he2, hi.trans hi2⟩

/-- C6: within one run (no reset), the three stored coverage ratios are
monotonically non-decreasing across any sequence of RewardCalculator method
calls, from any ratio-consistent state (a fresh or reset calculator is such a
state); and immediately after reset_metrics the three fingerprint sets are
empty and the three ratios are zero. -/
theorem c6_coverage_monotone (s : RewardCalculatorState) (calls : List RCall)
    (h : RatiosConsistent s) :
    (s.coverage_metrics.page_coverage ≤
       (applyCalls s calls).coverage_metrics.page_coverage ∧
     s.coverage_metrics.element_coverage ≤
       (applyCalls s calls).coverage_metrics.element_coverage ∧
     s.coverage_metrics.interaction_coverage ≤
       (applyCalls s calls).coverage_metrics.interaction_coverage) ∧
    ((reset_metrics s).coverage_metrics.pages_visited = ∅ ∧
     (reset_metrics s).coverage_metrics.elements_discovered = ∅ ∧
     (reset_metrics s).coverage_metrics.interactions_performed = ∅ ∧
     (reset_metrics s).coverage_metrics.page_coverage = 0 ∧
     (reset_metrics s).coverage_metrics.element_coverage = 0 ∧
     (reset_metrics s).coverage_metrics.interaction_coverage = 0) := by
  obtain ⟨_, hp, he, hi⟩ := applyCalls_mono calls s h
  exact ⟨⟨hp, he, hi⟩,
    by simp [reset_metrics, mkRewardCalculator]⟩

/-- C6 witness: the fresh calculator is ratio-consistent, and the theorem
applies to it with a concrete two-call sequence. -/
theorem c6_coverage_monotone_witness :
    RatiosConsistent mkRewardCalculator ∧
    ((mkRewardCalculator.coverage_metrics.page_coverage ≤
        (applyCalls mkRewardCalculator
          [RCall.exploration psTwoElems "click" true,
           RCall.coverage]).coverage_metrics.page_coverage ∧
      mkRewardCalculator.coverage_metrics.element_coverage ≤
        (applyCalls mkRewardCalculator
          [RCall.exploration psTwoElems "click" true,
           RCall.coverage]).coverage_metrics.element_coverage ∧
      mkRewardCalculator.coverage_metrics.interaction_coverage ≤
        (applyCalls mkRewardCalculator
          [RCall.exploration psTwoElems "click" true,
           RCall.coverage]).coverage_metrics.interaction_coverage) ∧
     ((reset_metrics mkRewardCalculator).coverage_metrics.pages_visited = ∅ ∧
      (reset_metrics mkRewardCalculator).coverage_metrics.elements_discovered = ∅ ∧
      (reset_metrics mkRewardCalculator).coverage_metrics.interactions_performed = ∅ ∧
      (reset_metrics mkRewardCalculator).coverage_metrics.page_coverage = 0 ∧
      (reset_metrics mkRewardCalculator).coverage_metrics.element_coverage = 0 ∧
      (reset_metrics mkRewardCalculator).coverage_metrics.interaction_coverage = 0)) :=
  ⟨by constructor <;> simp [mkRewardCalculator],
   c6_coverage_monotone mkRewardCalculator
     [RCall.exploration psTwoElems "click" true, RCall.coverage]
     (by constructor <;> simp [mkRewardCalculator])⟩

/-- C8: with fewer than batch_size (32) experiences in the replay buffer,
replay is a silent no-op: whatever the gradient step and the batch sampler
would do, the whole agent state (memory, epsilon, online network, target
network, optimizer) is returned unchanged. -/
theorem c8_replay_noop {P O : Type} (train : P → P → O → List Experience → P × O)
    (sample : List Experience → List Experience) (s : AgentState P O)
    (h : s.memory.length < batch_size) :
    replay train sample s = s := by
  unfold replay
  rw [if_pos h]

/-- C8 witness: a fresh agent with empty memory, a gradient step and sampler
that would visibly change things if run. -/
theorem c8_replay_noop_witness :
    (([] : List Experience).length < batch_size) ∧
    replay (fun _q _t _o _b => ((7:ℚ), (9:ℚ))) (fun b => b)
      ({ memory := [], epsilon := 1, q_network := (0:ℚ),
         target_network := (0:ℚ), optimizer := (0:ℚ) } : AgentState ℚ ℚ) =
      { memory := [], epsilon := 1, q_network := (0:ℚ),
        target_network := (0:ℚ), optimizer := (0:ℚ) } :=
  ⟨by decide,
   c8_replay_noop (fun _q _t _o _b => ((7:ℚ), (9:ℚ))) (fun b => b) _ (by decide)⟩

/-- C10: every call of get_available_actions, on every PageState (also one
with no elements or only non-interactable ones), contains the five fixed
navigation actions, so the returned list is never empty — in particular the
episode-loop branch that breaks on an empty available-action list can never
be taken. -/
theorem c10_available_actions_never_empty (ps : PageState) :
    ({ action_type := "scroll_up" } : Action) ∈ get_available_actions ps ∧
    ({ action_type := "scroll_down" } : Action) ∈ get_available_actions ps ∧
    ({ action_type := "wait" } : Action) ∈ get_available_actions ps ∧
    ({ action_type := "navigate_back" } : Action) ∈ get_available_actions ps ∧
    ({ action_type := "refresh" } : Action) ∈ get_available_actions ps ∧
    get_available_actions ps ≠ [] ∧
    (get_available_actions ps).isEmpty = false := by
  refine ⟨?_, ?_, ?_, ?_, ?_, ?_, ?_⟩
  · exact List.mem_append_right _ (by simp [navigation_actions])
  · exact List.mem_append_right _ (by simp [navigation_actions])
  · exact List.mem_append_right _ (by simp [navigation_actions])
  · exact List.mem_append_right _ (by simp [navigation_actions])
  · exact List.mem_append_right _ (by simp [navigation_actions])
  · simp [get_available_actions, navigation_actions]
  · simp [get_available_actions, navigation_actions]

/-- An in-range getD access hits a member of the list. -/
lemma getD_mem_of_lt : ∀ (l : List ℚ) (j : ℕ), j < l.length → l.getD j 0 ∈ l
  | x :: xs, 0, _ => by simp
  | _ :: xs, j + 1, h => by
      simp only [List.getD_cons_succ]
      exact List.mem_cons_of_mem _ (getD_mem_of_lt xs j (by simpa using h))

/-- Every member of the list is an in-range getD access. -/
lemma mem_exists_getD {l : List ℚ} {y : ℚ} (hy : y ∈ l) :
    ∃ j, j < l.length ∧ l.getD j 0 = y := by
  induction l with
  | nil => simp at hy
  | cons x xs ih =>
      rcases List.mem_cons.mp hy with h | h
      · exact ⟨0, by simp, by simp [h.symm]⟩
      · obtain ⟨j, hj, hjy⟩ := ih h
        exact ⟨j + 1, by simpa using Nat.succ_lt_succ hj, by simpa using hjy⟩

/-- argmaxIdx of a non-empty list is in range. -/
lemma argmaxIdx_lt_length (l : List ℚ) (h : l ≠ []) : argmaxIdx l < l.length := by
  induction l with
  | nil => exact absurd rfl h
  | cons x xs ih =>
      by_cases hall : ∀ y ∈ xs, y ≤ x
      · simp only [argmaxIdx, if_pos hall, List.length_cons]
        omega
      · have hxs : xs ≠ [] := by
          intro hnil
          subst hnil
          simp at hall
        have h2 := ih hxs
        simp only [argmaxIdx, if_neg hall, List.length_cons]
        omega

/-- The entry at argmaxIdx dominates every entry of the list. -/
lemma argmaxIdx_is_max (l : List ℚ) :
    ∀ j, j < l.length → l.getD j 0 ≤ l.getD (argmaxIdx l) 0 := by
  induction l with
  | nil => intro j hj; simp at hj
  | cons x xs ih =>
      intro j hj
      by_cases hall : ∀ y ∈ xs, y ≤ x
      · simp only [argmaxIdx, if_pos hall, List.getD_cons_zero]
        match j with
        | 0 => simp
        | k + 1 =>
            simp only [List.getD_cons_succ]
            exact hall _ (getD_mem_of_lt xs k (by simpa using hj))
      · push_neg at hall
        obtain ⟨y, hy, hxy⟩ := hall
        have hall' : ¬ ∀ y ∈ xs, y ≤ x := by
          intro hco
          exact absurd (hco y hy) (not_le.mpr hxy)
        obtain ⟨jy, hjy, hjyv⟩ := mem_exists_getD hy
        simp only [argmaxIdx, if_neg hall', List.getD_cons_succ]
        match j with
        | 0 =>
            simp only [List.getD_cons_zero]
            calc x ≤ y := hxy.le
              _ = xs.getD jy 0 := hjyv.symm
              _ ≤ xs.getD (argmaxIdx xs) 0 := ih jy hjy
        | k + 1 =>
            simp only [List.getD_cons_succ]
            exact ih k (by simpa using hj)

/-- Entries strictly before argmaxIdx are strictly below the maximum:
np.argmax returns the first occurrence, so ties are broken by order. -/
lemma argmaxIdx_first (l : List ℚ) :
    ∀ j, j < argmaxIdx l → l.getD j 0 < l.getD (argmaxIdx l) 0 := by
  induction l with
  | nil => intro j hj; simp [argmaxIdx] at hj
  | cons x xs ih =>
      intro j hj
      by_cases hall : ∀ y ∈ xs, y ≤ x
      · simp [argmaxIdx, if_pos hall] at hj
      · push_neg at hall
        obtain ⟨y, hy, hxy⟩ := hall
        have hall' : ¬ ∀ y ∈ xs, y ≤ x := by
          intro hco
          exact absurd (hco y hy) (not_le.mpr hxy)
        obtain ⟨jy, hjy, hjyv⟩ := mem_exists_getD hy
        simp only [argmaxIdx, if_neg hall'] at hj ⊢
        simp only [List.getD_cons_succ]
        match j, hj with
        | 0, _ =>
            simp only [List.getD_cons_zero]
            calc x < y := hxy
              _ = xs.getD jy 0 := hjyv.symm
              _ ≤ xs.getD (argmaxIdx xs) 0 := argmaxIdx_is_max xs jy hjy
        | k + 1, hj =>
            simp only [List.getD_cons_succ]
            exact ih k (by omega)

/-- C4 (amended): with epsilon forced to 0 and any strictly positive draw —
the almost-sure case — get_action deterministically returns the available
action at the argmax index of the scores; that index is in range, its score
dominates every candidate's score, and every earlier candidate scores
strictly less (first occurrence wins ties). -/
theorem c4_eps_zero_argmax (r : ℚ) (choice : ℕ) (q : ℕ → ℚ)
    (available : List Action) (hr : 0 < r) (hne : available ≠ []) :
    argmaxIdx (scoresOf q available) < available.length ∧
    get_action 0 r choice q available =
      available[argmaxIdx (scoresOf q available)]? ∧
    (∀ j, j < available.length →
      (scoresOf q available).getD j 0 ≤
        (scoresOf q available).getD (argmaxIdx (scoresOf q available)) 0) ∧
    (∀ j, j < argmaxIdx (scoresOf q available) →
      (scoresOf q available).getD j 0 <
        (scoresOf q available).getD (argmaxIdx (scoresOf q available)) 0) := by
  have hlen : (scoresOf q available).length = available.length := by
    simp [scoresOf]
  have hsne : scoresOf q available ≠ [] := by
    simp only [scoresOf, ne_eq, List.map_eq_nil_iff]
    exact hne
  have hemp : available.isEmpty ≠ true := by
    intro hco
    exact hne (List.isEmpty_iff.mp hco)
  refine ⟨?_, ?_, ?_, ?_⟩
  · have := argmaxIdx_lt_length _ hsne
    omega
  · unfold get_action
    rw [if_neg (not_le.mpr hr), if_neg hemp]
  · intro j hj
    exact argmaxIdx_is_max _ j (by omega)
  · exact argmaxIdx_first _

/-- C4 counterexample: the source compares the draw with `<=`, so with
epsilon = 0 a draw of exactly 0.0 (a possible np.random.random() output)
takes the random branch.  With the score row qLinear the wait action strictly
dominates the click action, yet at draw 0 with choice index 0 get_action
returns the click action; at draw 1 it returns the wait action — so with
epsilon 0 it neither always returns the max-scoring action nor is it
deterministic across calls. -/
theorem c4_random_branch_at_zero :
    get_action 0 0 0 qLinear [actClick, actWait] = some actClick ∧
    get_action 0 1 0 qLinear [actClick, actWait] = some actWait ∧
    actClick ≠ actWait ∧
    qLinear (action_types.indexOf actClick.action_type) <
      qLinear (action_types.indexOf actWait.action_type) := by
  have hidxc : action_types.indexOf actClick.action_type = 0 := rfl
  have hidxw : action_types.indexOf actWait.action_type = 4 := rfl
  have hs : scoresOf qLinear [actClick, actWait] = [0, 4] := by
    simp [scoresOf, hidxc, hidxw, qLinear]
  have hm : argmaxIdx [(0:ℚ), 4] = 1 := by
    norm_num [argmaxIdx]
  refine ⟨?_, ?_, by decide, ?_⟩
  · unfold get_action
    rw [if_pos le_rfl]
    rfl
  · unfold get_action
    rw [if_neg (by norm_num), hs, hm]
    rfl
  · rw [hidxc, hidxw]
    norm_num [qLinear]

/-- C4 witness: the amended theorem applied at draw 1, the two-action list
and the qLinear row: the exploit branch returns the wait action (index 1,
the argmax). -/
theorem c4_eps_zero_argmax_witness :
    (0:ℚ) < 1 ∧ ([actClick, actWait] : List Action) ≠ [] ∧
    get_action 0 1 0 qLinear [actClick, actWait] =
      [actClick, actWait][argmaxIdx (scoresOf qLinear [actClick, actWait])]? :=
  ⟨by norm_num, by decide,
   (c4_eps_zero_argmax 1 0 qLinear [actClick, actWait] (by norm_num)
     (by decide)).2.1⟩

/-- C9: every scenario created for the pattern login_flow has the step action
sequence navigate, type, type, click in exactly that order, and at least one
assertion of type url_contains. -/
theorem c9_login_flow_scenario (a n : ℕ)
    (h : (create_test_scenario a n).pattern = "login_flow") :
    (create_test_scenario a n).steps.map TestStep.action =
      ["navigate", "type", "type", "click"] ∧
    ∃ asrt ∈ (create_test_scenario a n).assertions, asrt.type = "url_contains" := by
  have hp : test_patterns.getD (a % test_patterns.length) "" = "login_flow" := h
  simp only [List.getD_eq_getElem?_getD] at hp
  constructor
  · simp [create_test_scenario, hp]
  · refine ⟨{ type := "url_contains", value := some "/search" }, ?_, rfl⟩
    simp [create_test_scenario, hp]

/-- C9 witness: action index 0 selects login_flow (0 mod 10 = 0). -/
theorem c9_login_flow_scenario_witness :
    (create_test_scenario 0 0).pattern = "login_flow" ∧
    ((create_test_scenario 0 0).steps.map TestStep.action =
        ["navigate", "type", "type", "click"] ∧
     ∃ asrt ∈ (create_test_scenario 0 0).assertions, asrt.type = "url_contains") :=
  ⟨rfl, c9_login_flow_scenario 0 0 rfl⟩

/-- C2: the claim says the experience recorded on the terminal step carries
done = true.  In the code the cap clause `step >= 50` of _is_episode_done is
evaluated inside `for step in range(50)`, where step is at most 49, so it
never fires: on an error-free environment the episode terminates by
exhausting the 50-step cap and ALL fifty recorded experiences carry
done = false, the terminal one included.  Only the error-URL clause ever
produces a terminal flag, as the one-step error run shows. -/
theorem c2_terminal_flag_bug :
    episode_done_flags envConstLogin 0 50 = List.replicate 50 false ∧
    (episode_done_flags envConstLogin 0 50).getLast? = some false ∧
    episode_done_flags envError 0 50 = [true] := by
  refine ⟨by decide, by decide, by decide⟩

end MarlUiTesting
